/-
Verification of the gofannon user-service backend
(webapp/packages/api/user-service) against its natural-language
specification.

The Python source is shallowly embedded: dictionaries become association
lists over `String` keys, `None`-able values become `Option`, raised
exceptions (`HTTPException`, `ValueError`) become `Except` errors, and
module-level mutable singletons become explicit state passed in and out.
Monetary amounts (`float` in the source) are modelled as exact rationals;
the embedded operations only compare, subtract and clamp them, so the
rational semantics is the intended one.
-/
import Mathlib

set_option autoImplicit false

namespace Gofannon

universe u

variable {α : Type u}

/-! ## Association lists as Python dicts

Python `dict`s keep insertion order; assignment to an existing key keeps
its position, assignment to a new key appends, `del` removes the entry.
-/

/-- `d.get(k)` / `k in d` on a dict modelled as a list of key-value pairs. -/
def lookupA (k : String) : List (String × α) → Option α
  | [] => none
  | (k', v) :: rest => if k' = k then some v else lookupA k rest

/-- `d[k] = v` on a dict: replace in place if the key exists, else append. -/
def setA (k : String) (v : α) : List (String × α) → List (String × α)
  | [] => [(k, v)]
  | (k', v') :: rest => if k' = k then (k, v) :: rest else (k', v') :: setA k v rest

/-- `del d[k]` on a dict: drop the entry with key `k`. -/
def removeA (k : String) : List (String × α) → List (String × α)
  | [] => []
  | (k', v) :: rest => if k' = k then rest else (k', v) :: removeA k rest

theorem lookupA_setA_self (k : String) (v : α) (l : List (String × α)) :
    lookupA k (setA k v l) = some v := by
  induction l with
  | nil => simp [setA, lookupA]
  | cons hd tl ih =>
    obtain ⟨k', v'⟩ := hd
    by_cases h : k' = k
    · simp [setA, lookupA, h]
    · simp [setA, lookupA, h, ih]

theorem lookupA_setA_ne (k k' : String) (v : α) (l : List (String × α)) (h : k' ≠ k) :
    lookupA k (setA k' v l) = lookupA k l := by
  induction l with
  | nil => simp [setA, lookupA, h]
  | cons hd tl ih =>
    obtain ⟨k'', v''⟩ := hd
    by_cases h2 : k'' = k'
    · subst h2
      simp [setA, lookupA, h]
    · simp [setA, lookupA, h2, ih]

/-! ## Scalar values appearing in request parameter dicts -/

/-- A Python scalar value as it appears in a `parameters` dict.  The
mutual-exclusion validator only asks whether a value `is not None`. -/
inductive PyVal where
  | pyNone
  | pyBool (b : Bool)
  | pyInt (n : Int)
  | pyRat (q : ℚ)
  | pyStr (s : String)
  deriving DecidableEq

abbrev Params := List (String × PyVal)

/-- `fastapi.HTTPException` with a status code and a detail message. -/
structure HTTPError where
  statusCode : Nat
  detail : String
  deriving DecidableEq

/-! ## services/database_service/memory.py — MemoryDBService

The in-memory backend keeps a dict of dicts `self.dbs`; `get` and
`delete` raise `HTTPException(404)` when the database or the document is
missing, `save` creates the inner dict on demand and returns an id/rev
pair, `list_all` returns the values of the inner dict (empty when the
database was never written). -/

structure MemoryDB (Doc : Type) where
  dbs : List (String × List (String × Doc)) := []
  deriving DecidableEq

namespace MemoryDB

variable {Doc : Type}

def get (s : MemoryDB Doc) (dbName docId : String) : Except HTTPError Doc :=
  match lookupA dbName s.dbs with
  | none => .error ⟨404, "Document '" ++ docId ++ "' not found in '" ++ dbName ++ "'"⟩
  | some docs =>
    match lookupA docId docs with
    | none => .error ⟨404, "Document '" ++ docId ++ "' not found in '" ++ dbName ++ "'"⟩
    | some d => .ok d

def save (s : MemoryDB Doc) (dbName docId : String) (doc : Doc) :
    MemoryDB Doc × (String × String) :=
  let docs := (lookupA dbName s.dbs).getD []
  (⟨setA dbName (setA docId doc docs) s.dbs⟩, (docId, "memory-rev"))

def delete (s : MemoryDB Doc) (dbName docId : String) : Except HTTPError (MemoryDB Doc) :=
  match lookupA dbName s.dbs with
  | none => .error ⟨404, "Document '" ++ docId ++ "' not found for deletion."⟩
  | some docs =>
    match lookupA docId docs with
    | none => .error ⟨404, "Document '" ++ docId ++ "' not found for deletion."⟩
    | some _ => .ok ⟨setA dbName (removeA docId docs) s.dbs⟩

def listAll (s : MemoryDB Doc) (dbName : String) : List Doc :=
  ((lookupA dbName s.dbs).getD []).map Prod.snd

/-- `db_name in self.dbs and doc_id in self.dbs[db_name]`. -/
def containsDoc (s : MemoryDB Doc) (dbName docId : String) : Bool :=
  match lookupA dbName s.dbs with
  | none => false
  | some docs => (lookupA docId docs).isSome

end MemoryDB

/-! ## config/provider_config.py — PROVIDER_CONFIG

The static per-vendor/per-model table.  The embedded operations read a
parameter schema's `mutually_exclusive_with` list (models/chat.py) and a
provider's `api_key_env_var`; the numeric bounds, defaults and
descriptions of the table are never read by the functions verified here
and are omitted. -/

structure ParamSchema where
  mutuallyExclusiveWith : List String := []
  deriving DecidableEq

structure ModelCfg where
  parameters : List (String × ParamSchema) := []
  deriving DecidableEq

structure ProviderCfg where
  apiKeyEnvVar : Option String := none
  models : List (String × ModelCfg) := []
  deriving DecidableEq

abbrev ProviderTable := List (String × ProviderCfg)

/-- The shipped `PROVIDER_CONFIG` dict (providers, models and parameter
names).  No parameter schema in this file carries a
`mutually_exclusive_with` key, so every `mutuallyExclusiveWith` list is
empty (`schema.get("mutually_exclusive_with", [])` returns `[]`). -/
def PROVIDER_CONFIG : ProviderTable :=
  [("openai",
    { apiKeyEnvVar := some "OPENAI_API_KEY",
      models :=
        [("gpt-5-mini-2025-08-07", { parameters := [] }),
         ("gpt-4",
          { parameters :=
              [("temperature", {}), ("max_tokens", {}), ("top_p", {}),
               ("presence_penalty", {}), ("frequency_penalty", {}), ("stop", {})] }),
         ("gpt-4.1-mini",
          { parameters := [("temperature", {}), ("max_tokens", {})] }),
         ("gpt-4.1-nano",
          { parameters := [("temperature", {}), ("max_tokens", {}), ("top_p", {})] })] }),
   ("gemini",
    { apiKeyEnvVar := some "GEMINI_API_KEY",
      models := [("gemini-2.5-pro", { parameters := [("reasoning_effort", {})] })] }),
   ("anthropic",
    { apiKeyEnvVar := some "ANTHROPIC_API_KEY",
      models :=
        [("claude-3-opus",
          { parameters :=
              [("temperature", {}), ("max_tokens", {}), ("top_p", {}), ("top_k", {})] }),
         ("claude-3-sonnet",
          { parameters := [("temperature", {}), ("max_tokens", {})] })] }),
   ("ollama",
    { apiKeyEnvVar := none,
      models :=
        [("llama2",
          { parameters :=
              [("temperature", {}), ("num_predict", {}), ("top_p", {}),
               ("top_k", {}), ("repeat_penalty", {})] }),
         ("mistral",
          { parameters := [("temperature", {}), ("num_predict", {})] })] })]

/-! ## models/chat.py — the mutual-exclusion validator and request models

`_ensure_mutually_exclusive` reads the module-level `PROVIDER_CONFIG`
global (which the unit tests monkeypatch), so the embedding passes the
table explicitly. -/

/-- `_has_value(parameters.get(name))`: `dict.get` yields `None` both for
a missing key and for a key stored as `None`. -/
def hasValue (parameters : Params) (name : String) : Bool :=
  match lookupA name parameters with
  | none => false
  | some v => v ≠ PyVal.pyNone

/-- `PROVIDER_CONFIG.get(provider, {}).get("models", {}).get(model, {})
.get("parameters", {})`. -/
def paramSchemasFor (cfg : ProviderTable) (provider model : String) :
    List (String × ParamSchema) :=
  match lookupA provider cfg with
  | none => []
  | some p =>
    match lookupA model p.models with
    | none => []
    | some m => m.parameters

/-- The loop body of `_ensure_mutually_exclusive`: skip a parameter whose
schema lists nothing or whose value is unset, otherwise raise on the
first set partner. -/
def ensureAux (parameters : Params) : List (String × ParamSchema) → Except String Unit
  | [] => .ok ()
  | (pname, schema) :: rest =>
    if schema.mutuallyExclusiveWith.isEmpty || !(hasValue parameters pname) then
      ensureAux parameters rest
    else
      match schema.mutuallyExclusiveWith.find? (fun other => hasValue parameters other) with
      | some other =>
        .error ("Parameters '" ++ pname ++ "' and '" ++ other ++ "' are mutually exclusive.")
      | none => ensureAux parameters rest

def ensureMutuallyExclusive (cfg : ProviderTable) (provider model : String)
    (parameters : Params) : Except String Unit :=
  ensureAux parameters (paramSchemasFor cfg provider model)

structure ChatMessageD where
  role : String
  content : String
  deriving DecidableEq

/-- models/chat.py `ChatRequest` after field validation; its
`model_validator(mode="after")` runs the mutual-exclusion check. -/
structure ChatRequestD where
  messages : List ChatMessageD
  provider : String := "openai"
  model : String := "gpt-3.5-turbo"
  parameters : Params := []
  stream : Bool := false
  builtInTools : List String := []
  deriving DecidableEq

def ChatRequestD.validate (cfg : ProviderTable) (r : ChatRequestD) :
    Except String ChatRequestD :=
  match ensureMutuallyExclusive cfg r.provider r.model r.parameters with
  | .ok _ => .ok r
  | .error e => .error e

/-- models/chat.py `ProviderConfig` (the pydantic request model, distinct
from the static table); it runs the same `model_validator`. -/
structure ProviderConfigD where
  provider : String
  model : String
  parameters : Params
  builtInTool : Option String := none
  deriving DecidableEq

def ProviderConfigD.validate (cfg : ProviderTable) (r : ProviderConfigD) :
    Except String ProviderConfigD :=
  match ensureMutuallyExclusive cfg r.provider r.model r.parameters with
  | .ok _ => .ok r
  | .error e => .error e

/-! ## config/__init__.py and services/database_service/__init__.py

`get_database_service` selects a backend from `settings.DATABASE_PROVIDER`
and memoises it in the module-level `_db_instance`; the embedding passes
the cached instance in and out.  `all([url, user, password])` is Python
truthiness, so `None` and the empty string both count as unset. -/

structure Settings where
  DATABASE_PROVIDER : String := "memory"
  COUCHDB_URL : Option String := none
  COUCHDB_USER : Option String := none
  COUCHDB_PASSWORD : Option String := none
  DYNAMODB_REGION : Option String := none
  DYNAMODB_ENDPOINT_URL : Option String := none
  AWS_ACCESS_KEY_ID : Option String := none
  AWS_SECRET_ACCESS_KEY : Option String := none
  deriving DecidableEq

/-- The service instance constructed by the factory, carrying the
constructor arguments it was built from. -/
inductive DBInstance where
  | couchDBService (url user password : Option String)
  | firestoreDBService
  | dynamoDBService (regionName endpointUrl awsAccessKeyId awsSecretAccessKey : Option String)
  | memoryDBService
  deriving DecidableEq

/-- Python truthiness of an optional string. -/
def truthy : Option String → Bool
  | none => false
  | some s => !s.isEmpty

def getDatabaseService (settings : Settings) (dbInstance : Option DBInstance) :
    Except String (DBInstance × Option DBInstance) :=
  match dbInstance with
  | some inst => .ok (inst, some inst)
  | none =>
    if settings.DATABASE_PROVIDER = "couchdb" then
      if truthy settings.COUCHDB_URL && truthy settings.COUCHDB_USER
          && truthy settings.COUCHDB_PASSWORD then
        let inst := DBInstance.couchDBService settings.COUCHDB_URL settings.COUCHDB_USER
          settings.COUCHDB_PASSWORD
        .ok (inst, some inst)
      else
        .error "COUCHDB_URL, COUCHDB_USER, and COUCHDB_PASSWORD must be set for couchdb provider"
    else if settings.DATABASE_PROVIDER = "firestore" then
      .ok (DBInstance.firestoreDBService, some DBInstance.firestoreDBService)
    else if settings.DATABASE_PROVIDER = "dynamodb" then
      let inst := DBInstance.dynamoDBService settings.DYNAMODB_REGION
        settings.DYNAMODB_ENDPOINT_URL settings.AWS_ACCESS_KEY_ID
        settings.AWS_SECRET_ACCESS_KEY
      .ok (inst, some inst)
    else
      .ok (DBInstance.memoryDBService, some DBInstance.memoryDBService)

/-! ## models/user.py and services/user_service.py

Times are abstract `Nat` ticks for `datetime.utcnow()`.  Monetary floats
are exact rationals: `require_allowance` only compares and `add_usage`
only subtracts and clamps, so no rounding behaviour is involved in the
verified statements. -/

structure UsageEntryD where
  timestamp : Nat
  responseCost : ℚ
  deriving DecidableEq

structure UsageInfoD where
  monthlyAllowance : ℚ := 100
  allowanceResetDate : ℚ := 0
  spendRemaining : ℚ := 100
  usage : List UsageEntryD := []
  deriving DecidableEq

structure UserD where
  id : String
  rev : Option String := none
  createdAt : Nat
  updatedAt : Nat
  usageInfo : UsageInfoD := {}
  deriving DecidableEq

abbrev UserStore := List (String × UserD)

/-- `UserService._create_default_user` (basic_info fields omitted; the
usage info takes the pydantic defaults). -/
def createDefaultUser (userId : String) (now : Nat) : UserD :=
  { id := userId, createdAt := now, updatedAt := now }

/-- `UserService.save_user`: stamp `updated_at`, write through the
in-memory backend and take the returned rev. -/
def saveUser (store : UserStore) (now : Nat) (u : UserD) : UserD × UserStore :=
  let u' := { u with updatedAt := now, rev := some "memory-rev" }
  (u', setA u'.id u' store)

/-- `UserService.get_user`: return the stored user, or create and save a
default one on a 404. -/
def getUser (store : UserStore) (userId : String) (now : Nat) : UserD × UserStore :=
  match lookupA userId store with
  | some u => (u, store)
  | none => saveUser store now (createDefaultUser userId now)

/-- `UserService.require_allowance`. -/
def requireAllowance (store : UserStore) (userId : String) (now : Nat)
    (minimumRemaining : ℚ := 1) : Except HTTPError (UserD × UserStore) :=
  let (user, store') := getUser store userId now
  if user.usageInfo.spendRemaining ≤ minimumRemaining then
    .error ⟨402, "Insufficient spend allowance to complete request"⟩
  else
    .ok (user, store')

/-- `UserService.add_usage`. -/
def addUsage (store : UserStore) (userId : String) (responseCost : ℚ) (now : Nat) :
    UserD × UserStore :=
  let (user, store') := getUser store userId now
  let user' :=
    { user with
      usageInfo :=
        { user.usageInfo with
          usage := user.usageInfo.usage ++ [⟨now, responseCost⟩],
          spendRemaining := max 0 (user.usageInfo.spendRemaining - responseCost) } }
  saveUser store' now user'

/-! ## models/agent.py — Agent

`Agent` extends `CreateAgentRequest`.  Fields declared with
`Field(...)` are required (`name`, `description`, `code`, `tools`,
`input_schema`, `output_schema` — the last two are required keys whose
value may be `null`); the rest default.  `id` defaults to a fresh
`uuid.uuid4()` string and `created_at`/`updated_at` to `utcnow()`. -/

/-- A JSON schema dict `Dict[str, Any]`; only the field-name-to-type-name
shape is read by the embedded operations. -/
abbrev SchemaD := List (String × String)

/-- `tools: Dict[str, List[str]]`, MCP server URL to tool names. -/
abbrev ToolsD := List (String × List String)

/-- The keyword arguments offered to the `Agent` constructor: the outer
`Option` is key presence, an inner `Option` is a `null`-able value. -/
structure AgentFields where
  name : Option String := none
  description : Option String := none
  code : Option String := none
  docstring : Option (Option String) := none
  friendlyName : Option (Option String) := none
  tools : Option ToolsD := none
  inputSchema : Option (Option SchemaD) := none
  outputSchema : Option (Option SchemaD) := none
  gofannonAgents : Option (Option (List String)) := none
  id : Option String := none
  createdAt : Option Nat := none
  updatedAt : Option Nat := none
  deriving DecidableEq

/-- A validated, stored `Agent` record. -/
structure AgentModel where
  name : String
  description : String
  code : String
  docstring : Option String := none
  friendlyName : Option String := none
  tools : ToolsD
  inputSchema : Option SchemaD := none
  outputSchema : Option SchemaD := none
  gofannonAgents : Option (List String) := some []
  id : String
  rev : Option String := none
  createdAt : Nat
  updatedAt : Nat
  deriving DecidableEq

/-- `Agent(**fields)`: pydantic validation fails when a required field is
missing; defaults fill the rest.  `freshId` is the `uuid.uuid4()` draw
and `now` the `utcnow()` reading taken when a default is needed. -/
def mkAgent (freshId : String) (now : Nat) (f : AgentFields) :
    Except String AgentModel :=
  match f.name, f.description, f.code, f.tools, f.inputSchema, f.outputSchema with
  | some n, some d, some c, some t, some inS, some outS =>
    .ok
      { name := n, description := d, code := c,
        docstring := f.docstring.getD none,
        friendlyName := f.friendlyName.getD none,
        tools := t, inputSchema := inS, outputSchema := outS,
        gofannonAgents := f.gofannonAgents.getD (some []),
        id := f.id.getD freshId, rev := none,
        createdAt := f.createdAt.getD now,
        updatedAt := f.updatedAt.getD now }
  | _, _, _, _, _, _ => .error "validation error: field required"

/-! ## agent_factory/remote_mcp_client.py — RemoteMCPClient

The remote server is modelled by the tool list it advertises and by a
function `remoteExec` giving the result of a remote tool execution. -/

structure MCPTool where
  name : String
  deriving DecidableEq

structure RemoteMCPClientState where
  remoteUrl : String
  authToken : Option String := none
  tools : List MCPTool := []
  deriving DecidableEq

/-- `RemoteMCPClient.list_tools`: fetch and cache the server's list. -/
def listToolsRM (serverTools : List MCPTool) (c : RemoteMCPClientState) :
    RemoteMCPClientState × List MCPTool :=
  ({ c with tools := serverTools }, serverTools)

/-- `RemoteMCPClient.call`: fetch the tool list when the cache is empty,
raise `ValueError` when the name is not listed, otherwise return the
remote execution result. -/
def callRM {ρ : Type} (remoteExec : String → Params → ρ) (serverTools : List MCPTool)
    (c : RemoteMCPClientState) (toolName : String) (params : Params) :
    Except String (ρ × RemoteMCPClientState) :=
  let c' := if c.tools.isEmpty then (listToolsRM serverTools c).1 else c
  if (c'.tools.map MCPTool.name).contains toolName then
    .ok (remoteExec toolName params, c')
  else
    .error ("Tool '" ++ toolName ++ "' not found on the server.")

/-! ## dependencies.py — `_execute_agent_code`

The helper compiles the stored code string and `exec`s it inside the
constructed dict `exec_globals` (dependencies.py lines 123-133).  The
embedding models that dict: each key is bound to a descriptor of the
injected object.  `GofannonClient.call` re-enters the helper; the
re-entry is modelled by the `ExecCall` record of arguments it passes. -/

structure BasicInfoD where
  email : Option String := none
  name : Option String := none
  deriving DecidableEq

/-- The dict of `_execute_agent_code` invocation arguments that
`GofannonClient.call` builds for its recursive call. -/
structure ExecCall where
  code : String
  inputDict : Params
  tools : ToolsD
  gofannonAgents : Option (List String)
  userId : Option String
  userBasicInfo : Option BasicInfoD
  deriving DecidableEq

abbrev AgentStore := List (String × AgentModel)

/-- A value bound in `exec_globals`. -/
inductive Injected where
  /-- The `RemoteMCPClient` class itself. -/
  | remoteMCPClientClass
  /-- `call_llm_with_context`: `call_llm` wrapped to pass the requesting
  user's id and basic info (and the user service looked up from them). -/
  | callLLM (userId : Option String) (userBasicInfo : Option BasicInfoD)
  | asyncioModule
  | httpxModule
  | reModule
  | jsonModule
  /-- `httpx.AsyncClient(follow_redirects=True)`. -/
  | httpClient (followRedirects : Bool)
  /-- `GofannonClient(gofannon_agents, db)` with its loaded `agent_map`. -/
  | gofannonClient (agentMap : AgentStore)
  /-- The host interpreter's `__builtins__` object, passed through
  unchanged — the executed code sees every host builtin. -/
  | hostBuiltins
  deriving DecidableEq

/-- `GofannonClient.__init__`: load each dependent agent by id from the
`agents` database and key the map by `agent.name` (any lookup failure
collapses to one `ValueError`).  `if agent_ids:` skips the load for an
empty or `None` list. -/
def buildAgentMapAux (agents : AgentStore) (acc : AgentStore) :
    List String → Except String AgentStore
  | [] => .ok acc
  | i :: rest =>
    match lookupA i agents with
    | none => .error "Could not load one or more dependent Gofannon agents."
    | some a => buildAgentMapAux agents (setA a.name a acc) rest

def buildAgentMap (agents : AgentStore) (agentIds : Option (List String)) :
    Except String AgentStore :=
  buildAgentMapAux agents [] (agentIds.getD [])

/-- `GofannonClient.call`: look the named agent up in `agent_map`, raise
`ValueError` when absent, otherwise re-enter `_execute_agent_code` on the
agent's stored code, the given input dict, its tools and its dependent
agents, forwarding the requesting user's identity. -/
def gofannonClientCall (agentMap : AgentStore) (userId : Option String)
    (userBasicInfo : Option BasicInfoD) (agentName : String) (inputDict : Params) :
    Except String ExecCall :=
  match lookupA agentName agentMap with
  | none => .error ("Gofannon agent '" ++ agentName ++ "' not found or not imported for this run.")
  | some a => .ok ⟨a.code, inputDict, a.tools, a.gofannonAgents, userId, userBasicInfo⟩

/-- The `exec_globals` dict built by `_execute_agent_code` before
`exec(code_obj, exec_globals, local_scope)` runs the agent's code. -/
def execGlobals (agents : AgentStore) (gofannonAgents : Option (List String))
    (userId : Option String) (userBasicInfo : Option BasicInfoD) :
    Except String (List (String × Injected)) :=
  match buildAgentMap agents gofannonAgents with
  | .error e => .error e
  | .ok agentMap =>
    .ok
      [("RemoteMCPClient", .remoteMCPClientClass),
       ("call_llm", .callLLM userId userBasicInfo),
       ("asyncio", .asyncioModule),
       ("httpx", .httpxModule),
       ("re", .reModule),
       ("json", .jsonModule),
       ("http_client", .httpClient true),
       ("gofannon_client", .gofannonClient agentMap),
       ("__builtins__", .hostBuiltins)]

/-! ## agent_factory/__init__.py — `generate_agent_code`'s fixed header

Every generated code body is wrapped in a header that defines
`async def run(input_dict, tools)` and, inside it, builds the local dict
`mcpc` with one `RemoteMCPClient` per URL in `tools.keys()`. -/

/-- A `RemoteMCPClient(remote_url=url)` constructed by the header. -/
structure MCPClientRef where
  remoteUrl : String
  deriving DecidableEq

def generatedCodeHeader : String :=
  "from agent_factory.remote_mcp_client import RemoteMCPClient\nimport litellm\n\nasync def run(input_dict, tools):\n   mcpc = \x7b url : RemoteMCPClient(remote_url = url) for url in tools.keys() \x7d"

/-- `"\n".join("   " + line for line in code_body.split("\n"))`. -/
def indentBody (codeBody : String) : String :=
  String.intercalate "\n" ((codeBody.splitOn "\n").map (fun l => "   " ++ l))

/-- `full_code = f"..."`: the header followed by the indented body. -/
def generatedFullCode (codeBody : String) : String :=
  generatedCodeHeader ++ "\n" ++ indentBody codeBody

/-- The dict the header's comprehension
`mcpc = { url : RemoteMCPClient(remote_url = url) for url in tools.keys() }`
produces inside `run`. -/
def mcpcDict (tools : ToolsD) : List (String × MCPClientRef) :=
  tools.map (fun kv => (kv.1, ⟨kv.1⟩))

/-! ## routes.py `/chat` endpoints and dependencies.py `process_chat`

The chat ticket lifecycle: `POST /chat` mints a ticket id, returns a
`pending` response and schedules `process_chat` as a background task;
`process_chat` writes a `processing` ticket document, runs the request
(an LLM call or an agent execution, here abstracted by its outcome) and
overwrites the ticket once with a terminal `completed` or `failed`
document.  `GET /chat/{ticket_id}` reads the stored document. -/

inductive ChatStatus where
  | pending
  | processing
  | completed
  | failed
  deriving DecidableEq

def ChatStatus.isTerminal : ChatStatus → Bool
  | .completed => true
  | .failed => true
  | _ => false

structure ChatResultD where
  content : String
  thoughts : List (String × String)
  model : String
  deriving DecidableEq

structure TicketDoc where
  status : ChatStatus
  createdAt : Nat
  request : ChatRequestD
  completedAt : Option Nat := none
  result : Option ChatResultD := none
  error : Option String := none
  deriving DecidableEq

structure ChatResponseD where
  ticketId : String
  status : ChatStatus
  result : Option ChatResultD := none
  error : Option String := none
  deriving DecidableEq

structure BackgroundTask where
  ticketId : String
  request : ChatRequestD
  deriving DecidableEq

/-- `POST /chat`: mint `ticket_id = str(uuid.uuid4())`, schedule
`process_chat` and reply immediately with a `pending` response. -/
def chatEndpoint (freshTicketId : String) (request : ChatRequestD) :
    ChatResponseD × BackgroundTask :=
  ({ ticketId := freshTicketId, status := .pending }, ⟨freshTicketId, request⟩)

/-- The outcome of the try-block body of `process_chat`: the content and
thoughts produced by the LLM call or the agent run, or the exception
message it raised. -/
inductive ChatOutcome where
  | success (content : String) (thoughts : List (String × String))
  | failure (error : String)
  deriving DecidableEq

/-- The sequence of `db_service.save("tickets", ticket_id, doc)` writes
`process_chat` performs: first the `processing` document, then the
terminal `completed` (with result content/thoughts/model) or `failed`
(with the error string) document. -/
def processChatSaves (ticketId : String) (request : ChatRequestD)
    (outcome : ChatOutcome) (t0 t1 : Nat) : List (String × TicketDoc) :=
  let procDoc : TicketDoc := { status := .processing, createdAt := t0, request := request }
  match outcome with
  | .success content thoughts =>
    [(ticketId, procDoc),
     (ticketId,
      { procDoc with
        status := .completed, completedAt := some t1,
        result := some ⟨content, thoughts, request.provider ++ "/" ++ request.model⟩ })]
  | .failure err =>
    [(ticketId, procDoc),
     (ticketId,
      { procDoc with status := .failed, completedAt := some t1, error := some err })]

/-- `GET /chat/{ticket_id}`: read the ticket document and project it into
a `ChatResponse` (a missing ticket propagates the backend's 404). -/
def getChatStatus (s : MemoryDB TicketDoc) (ticketId : String) :
    Except HTTPError ChatResponseD :=
  match s.get "tickets" ticketId with
  | .error e => .error e
  | .ok d => .ok ⟨ticketId, d.status, d.result, d.error⟩

/-! ## dependencies.py — `deploy_agent`

Deployments are documents `{"agentId": ...}` keyed by the agent's
`friendly_name` in the `deployments` database. -/

abbrev DeploymentStore := List (String × String)

def deployAgent (agents : AgentStore) (deployments : DeploymentStore)
    (agentId : String) : Except HTTPError (DeploymentStore × String) :=
  match lookupA agentId agents with
  | none => .error ⟨404, "Document '" ++ agentId ++ "' not found in 'agents'"⟩
  | some agent =>
    if truthy agent.friendlyName then
      let friendlyName := agent.friendlyName.getD ""
      match lookupA friendlyName deployments with
      | some existingAgentId =>
        if existingAgentId = agentId then
          .ok (deployments, "Agent is already deployed")
        else
          .error ⟨409, "A deployment with the name '" ++ friendlyName
            ++ "' already exists for a different agent."⟩
      | none =>
        .ok (setA friendlyName agentId deployments, "Agent deployed successfully")
    else
      .error ⟨400, "Agent must have a friendly_name to be deployed."⟩

/-- A set parameter marked mutually exclusive with another set parameter,
per the parameter schemas the table gives for `provider`/`model`. -/
def hasConflict (cfg : ProviderTable) (provider model : String) (parameters : Params) : Prop :=
  ∃ p s, (p, s) ∈ paramSchemasFor cfg provider model
    ∧ hasValue parameters p = true
    ∧ ∃ o ∈ s.mutuallyExclusiveWith, hasValue parameters o = true

/-! # Theorems -/

/-- C8: for the in-memory backend, `get` after `save` returns exactly the
document just saved, `get` and `delete` raise `HTTPException(404)` if and
only if no document is stored under the `(db_name, doc_id)` pair, and
`list_all` of a never-written database name returns the empty list. -/
theorem memoryDB_spec {Doc : Type} (s : MemoryDB Doc) (dbName docId : String) (doc : Doc) :
    ((s.save dbName docId doc).1.get dbName docId = .ok doc)
    ∧ ((∃ e, s.get dbName docId = .error e ∧ e.statusCode = 404)
        ↔ s.containsDoc dbName docId = false)
    ∧ ((∃ d, s.get dbName docId = .ok d) ↔ s.containsDoc dbName docId = true)
    ∧ ((∃ e, s.delete dbName docId = .error e ∧ e.statusCode = 404)
        ↔ s.containsDoc dbName docId = false)
    ∧ (lookupA dbName s.dbs = none → s.listAll dbName = []) := by
  refine ⟨?_, ?_, ?_, ?_, ?_⟩
  · simp [MemoryDB.save, MemoryDB.get, lookupA_setA_self]
  · unfold MemoryDB.get MemoryDB.containsDoc
    cases h1 : lookupA dbName s.dbs with
    | none => simp
    | some docs =>
      cases h2 : lookupA docId docs with
      | none => simp [h2]
      | some d => simp [h2]
  · unfold MemoryDB.get MemoryDB.containsDoc
    cases h1 : lookupA dbName s.dbs with
    | none => simp
    | some docs =>
      cases h2 : lookupA docId docs with
      | none => simp [h2]
      | some d => simp [h2]
  · unfold MemoryDB.delete MemoryDB.containsDoc
    cases h1 : lookupA dbName s.dbs with
    | none => simp
    | some docs =>
      cases h2 : lookupA docId docs with
      | none => simp [h2]
      | some d => simp [h2]
  · intro h
    simp [MemoryDB.listAll, h]

theorem memoryDB_spec_witness :
    (MemoryDB.get ((MemoryDB.save (⟨[]⟩ : MemoryDB Nat) "agents" "a1" 7).1) "agents" "a1"
        = .ok 7)
    ∧ MemoryDB.listAll (⟨[]⟩ : MemoryDB Nat) "agents" = [] :=
  ⟨(memoryDB_spec (⟨[]⟩ : MemoryDB Nat) "agents" "a1" 7).1,
   (memoryDB_spec (⟨[]⟩ : MemoryDB Nat) "agents" "a1" 7).2.2.2.2 rfl⟩

/-- C4: constructing an `Agent` succeeds only when the `name`,
`description`, `code`, `inputSchema` and `outputSchema` fields were all
provided (alongside the required `tools`), and an `Agent` constructed
without an explicit id gets the freshly drawn UUID4 string as its id,
together with `created_at`/`updated_at` timestamps. -/
theorem mkAgent_spec (freshId : String) (now : Nat) (f : AgentFields) (a : AgentModel)
    (h : mkAgent freshId now f = .ok a) :
    (f.name.isSome ∧ f.description.isSome ∧ f.code.isSome
      ∧ f.inputSchema.isSome ∧ f.outputSchema.isSome)
    ∧ (f.id = none → a.id = freshId)
    ∧ (f.createdAt = none → a.createdAt = now)
    ∧ (f.updatedAt = none → a.updatedAt = now) := by
  unfold mkAgent at h
  split at h
  case h_1 n d c t inS outS hn hd hc ht hin hout =>
    cases h
    refine ⟨⟨?_, ?_, ?_, ?_, ?_⟩, ?_, ?_, ?_⟩
    · simp [hn]
    · simp [hd]
    · simp [hc]
    · simp [hin]
    · simp [hout]
    · intro hid; simp [hid]
    · intro hca; simp [hca]
    · intro hua; simp [hua]
  case h_2 => cases h

theorem mkAgent_spec_witness :
    mkAgent "uuid-1234" 5
        { name := some "a", description := some "d", code := some "pass",
          tools := some [], inputSchema := some (some []), outputSchema := some (some []) }
      = .ok
        { name := "a", description := "d", code := "pass", tools := [],
          inputSchema := some [], outputSchema := some [],
          id := "uuid-1234", createdAt := 5, updatedAt := 5 }
    ∧ ((none : Option String) = none →
        ({ name := "a", description := "d", code := "pass", tools := [],
           inputSchema := some [], outputSchema := some [],
           id := "uuid-1234", createdAt := 5, updatedAt := 5 } : AgentModel).id = "uuid-1234") :=
  ⟨rfl,
   (mkAgent_spec "uuid-1234" 5
      { name := some "a", description := some "d", code := some "pass",
        tools := some [], inputSchema := some (some []), outputSchema := some (some []) }
      _ rfl).2.1⟩

/-- C5: `get_database_service` picks the backend from
`settings.DATABASE_PROVIDER` — `couchdb` (raising `ValueError` unless
`COUCHDB_URL`, `COUCHDB_USER` and `COUCHDB_PASSWORD` are all set),
`firestore`, `dynamodb`, and in-memory for every other value — and once
an instance is cached every later call returns it unchanged, whatever the
settings. -/
theorem getDatabaseService_spec (settings : Settings) (cache : Option DBInstance) :
    (∀ inst, cache = some inst →
        getDatabaseService settings cache = .ok (inst, some inst))
    ∧ (cache = none → settings.DATABASE_PROVIDER = "couchdb" →
        (truthy settings.COUCHDB_URL && truthy settings.COUCHDB_USER
            && truthy settings.COUCHDB_PASSWORD) = false →
        getDatabaseService settings cache
          = .error "COUCHDB_URL, COUCHDB_USER, and COUCHDB_PASSWORD must be set for couchdb provider")
    ∧ (cache = none → settings.DATABASE_PROVIDER = "couchdb" →
        (truthy settings.COUCHDB_URL && truthy settings.COUCHDB_USER
            && truthy settings.COUCHDB_PASSWORD) = true →
        getDatabaseService settings cache
          = .ok (.couchDBService settings.COUCHDB_URL settings.COUCHDB_USER settings.COUCHDB_PASSWORD,
                 some (.couchDBService settings.COUCHDB_URL settings.COUCHDB_USER settings.COUCHDB_PASSWORD)))
    ∧ (cache = none → settings.DATABASE_PROVIDER = "firestore" →
        getDatabaseService settings cache = .ok (.firestoreDBService, some .firestoreDBService))
    ∧ (cache = none → settings.DATABASE_PROVIDER = "dynamodb" →
        getDatabaseService settings cache
          = .ok (.dynamoDBService settings.DYNAMODB_REGION settings.DYNAMODB_ENDPOINT_URL
                   settings.AWS_ACCESS_KEY_ID settings.AWS_SECRET_ACCESS_KEY,
                 some (.dynamoDBService settings.DYNAMODB_REGION settings.DYNAMODB_ENDPOINT_URL
                   settings.AWS_ACCESS_KEY_ID settings.AWS_SECRET_ACCESS_KEY)))
    ∧ (cache = none → settings.DATABASE_PROVIDER ≠ "couchdb" →
        settings.DATABASE_PROVIDER ≠ "firestore" → settings.DATABASE_PROVIDER ≠ "dynamodb" →
        getDatabaseService settings cache = .ok (.memoryDBService, some .memoryDBService)) := by
  refine ⟨?_, ?_, ?_, ?_, ?_, ?_⟩
  · intro inst h; simp [getDatabaseService, h]
  · intro hc hp hcred; simp [getDatabaseService, hc, hp, hcred]
  · intro hc hp hcred; simp [getDatabaseService, hc, hp, hcred]
  · intro hc hp; simp [getDatabaseService, hc, hp]
  · intro hc hp; simp [getDatabaseService, hc, hp]
  · intro hc h1 h2 h3; simp [getDatabaseService, hc, h1, h2, h3]

theorem getDatabaseService_spec_witness :
    (getDatabaseService { DATABASE_PROVIDER := "couchdb" } none
        = .error "COUCHDB_URL, COUCHDB_USER, and COUCHDB_PASSWORD must be set for couchdb provider")
    ∧ (getDatabaseService { DATABASE_PROVIDER := "couchdb" } (some .memoryDBService)
        = .ok (.memoryDBService, some .memoryDBService))
    ∧ (getDatabaseService { DATABASE_PROVIDER := "anything-else" } none
        = .ok (.memoryDBService, some .memoryDBService)) :=
  ⟨(getDatabaseService_spec { DATABASE_PROVIDER := "couchdb" } none).2.1 rfl rfl (by decide),
   (getDatabaseService_spec { DATABASE_PROVIDER := "couchdb" } (some .memoryDBService)).1
     .memoryDBService rfl,
   (getDatabaseService_spec { DATABASE_PROVIDER := "anything-else" } none).2.2.2.2.2 rfl
     (by decide) (by decide) (by decide)⟩

/-- C2: whenever `_execute_agent_code` builds its execution namespace,
the constructed `exec_globals` dict maps `"__builtins__"` to the host
interpreter's `__builtins__` object itself — the executed code gets the
full set of host builtins, with no isolation layer substituted. -/
theorem execGlobals_builtins_spec (agents : AgentStore) (gofannonAgents : Option (List String))
    (userId : Option String) (userBasicInfo : Option BasicInfoD)
    (g : List (String × Injected))
    (h : execGlobals agents gofannonAgents userId userBasicInfo = .ok g) :
    lookupA "__builtins__" g = some Injected.hostBuiltins := by
  unfold execGlobals at h
  cases hb : buildAgentMap agents gofannonAgents with
  | error e => rw [hb] at h; cases h
  | ok agentMap =>
    rw [hb] at h
    cases h
    simp [lookupA]

theorem execGlobals_builtins_spec_witness :
    ∃ g, execGlobals [] none none none = .ok g
      ∧ lookupA "__builtins__" g = some Injected.hostBuiltins :=
  ⟨_, rfl, execGlobals_builtins_spec [] none none none _ rfl⟩

/-- C9: `require_allowance` raises `HTTPException(402)` exactly when the
user's `spend_remaining` is less than or equal to `minimum_remaining`
(whose default is `1.0`, so exactly `1.0` remaining is rejected), and the
check changes neither the user's spend nor the store; `add_usage` sets
`spend_remaining` to `max(0.0, previous - response_cost)`, which is never
negative. -/
theorem userAllowance_spec (store : UserStore) (userId : String) (u : UserD)
    (minimumRemaining responseCost : ℚ) (now : Nat)
    (hu : lookupA userId store = some u) :
    ((∃ e, requireAllowance store userId now minimumRemaining = .error e ∧ e.statusCode = 402)
        ↔ u.usageInfo.spendRemaining ≤ minimumRemaining)
    ∧ (∀ v store', requireAllowance store userId now minimumRemaining = .ok (v, store') →
        v.usageInfo.spendRemaining = u.usageInfo.spendRemaining ∧ store' = store)
    ∧ (requireAllowance store userId now = requireAllowance store userId now 1)
    ∧ ((addUsage store userId responseCost now).1.usageInfo.spendRemaining
        = max 0 (u.usageInfo.spendRemaining - responseCost))
    ∧ (0 ≤ (addUsage store userId responseCost now).1.usageInfo.spendRemaining) := by
  refine ⟨?_, ?_, rfl, ?_, ?_⟩
  · unfold requireAllowance getUser
    rw [hu]
    by_cases hle : u.usageInfo.spendRemaining ≤ minimumRemaining
    · simp [hle]
    · simp [hle]
  · intro v store' h
    unfold requireAllowance getUser at h
    rw [hu] at h
    by_cases hle : u.usageInfo.spendRemaining ≤ minimumRemaining
    · simp [hle] at h
    · simp [hle] at h
      obtain ⟨h1, h2⟩ := h
      exact ⟨by rw [← h1], h2.symm⟩
  · unfold addUsage getUser saveUser
    rw [hu]
  · unfold addUsage getUser saveUser
    rw [hu]
    simp

theorem userAllowance_spec_witness :
    (∃ e, requireAllowance
        [("u1", { id := "u1", createdAt := 0, updatedAt := 0,
                  usageInfo := { spendRemaining := 1 } })] "u1" 3 1
      = .error e ∧ e.statusCode = 402)
    ∧ (addUsage
        [("u1", { id := "u1", createdAt := 0, updatedAt := 0,
                  usageInfo := { spendRemaining := 1 } })] "u1" 5 3).1.usageInfo.spendRemaining
      = max 0 (1 - 5) :=
  ⟨((userAllowance_spec
      [("u1", { id := "u1", createdAt := 0, updatedAt := 0,
                usageInfo := { spendRemaining := 1 } })] "u1"
      { id := "u1", createdAt := 0, updatedAt := 0, usageInfo := { spendRemaining := 1 } }
      1 5 3 rfl).1).mpr (by norm_num),
   ((userAllowance_spec
      [("u1", { id := "u1", createdAt := 0, updatedAt := 0,
                usageInfo := { spendRemaining := 1 } })] "u1"
      { id := "u1", createdAt := 0, updatedAt := 0, usageInfo := { spendRemaining := 1 } }
      1 5 3 rfl).2.2.2.1)⟩

/-- C7: `RemoteMCPClient.call` on a client that has not yet fetched the
server's tool list fetches it first, raises `ValueError` exactly when the
requested tool name is not among the server's listed tools, and otherwise
returns the remote execution result for the given keyword arguments; a
client whose cache is already populated does not refetch. -/
theorem remoteMCP_call_spec {ρ : Type} (remoteExec : String → Params → ρ)
    (serverTools : List MCPTool) (url : String) (tok : Option String)
    (toolName : String) (params : Params) (c : RemoteMCPClientState) :
    (∀ r c', callRM remoteExec serverTools ⟨url, tok, []⟩ toolName params = .ok (r, c') →
        r = remoteExec toolName params ∧ c'.tools = serverTools)
    ∧ ((callRM remoteExec serverTools ⟨url, tok, []⟩ toolName params
          = .error ("Tool '" ++ toolName ++ "' not found on the server."))
        ↔ toolName ∉ serverTools.map MCPTool.name)
    ∧ ((∃ r c', callRM remoteExec serverTools ⟨url, tok, []⟩ toolName params = .ok (r, c'))
        ↔ toolName ∈ serverTools.map MCPTool.name)
    ∧ (¬ c.tools.isEmpty →
        callRM remoteExec serverTools c toolName params
          = if (c.tools.map MCPTool.name).contains toolName then
              .ok (remoteExec toolName params, c)
            else
              .error ("Tool '" ++ toolName ++ "' not found on the server.")) := by
  refine ⟨?_, ?_, ?_, ?_⟩
  · intro r c' h
    by_cases hm : toolName ∈ List.map MCPTool.name serverTools
    · have hm' := hm
      rw [List.mem_map] at hm'
      simp [callRM, listToolsRM, hm'] at h
      exact ⟨h.1.symm, by rw [← h.2]⟩
    · have hm' := hm
      rw [List.mem_map] at hm'
      simp [callRM, listToolsRM, hm'] at h
  · by_cases hm : toolName ∈ List.map MCPTool.name serverTools
    · have hm' := hm
      rw [List.mem_map] at hm'
      simp [callRM, listToolsRM, hm', hm]
    · have hm' := hm
      rw [List.mem_map] at hm'
      simp [callRM, listToolsRM, hm', hm]
  · by_cases hm : toolName ∈ List.map MCPTool.name serverTools
    · have hm' := hm
      rw [List.mem_map] at hm'
      simp [callRM, listToolsRM, hm', hm]
    · have hm' := hm
      rw [List.mem_map] at hm'
      simp [callRM, listToolsRM, hm', hm]
  · intro hne
    simp only [callRM]
    simp [hne]

theorem remoteMCP_call_spec_witness :
    (∃ r c', callRM (fun nm _ => nm ++ "-result") [⟨"add"⟩]
        ⟨"http://mcp.example", none, []⟩ "add" [] = .ok (r, c'))
    ∧ (callRM (fun nm _ => nm ++ "-result") [⟨"add"⟩]
        ⟨"http://mcp.example", none, []⟩ "sub" []
      = .error "Tool 'sub' not found on the server.") := by
  constructor
  · exact (remoteMCP_call_spec (fun nm _ => nm ++ "-result") [⟨"add"⟩]
      "http://mcp.example" none "add" [] ⟨"", none, []⟩).2.2.1.mpr (by decide)
  · have h := (remoteMCP_call_spec (fun nm _ => nm ++ "-result") [⟨"add"⟩]
      "http://mcp.example" none "sub" [] ⟨"", none, []⟩).2.1.mpr (by decide)
    simpa using h

/-- The validator loop succeeds exactly when no listed parameter that is
set has a set partner in its `mutually_exclusive_with` list. -/
theorem ensureAux_ok_iff (parameters : Params) (l : List (String × ParamSchema)) :
    ensureAux parameters l = .ok () ↔
      ∀ p s, (p, s) ∈ l → hasValue parameters p = true →
        ∀ o ∈ s.mutuallyExclusiveWith, hasValue parameters o = false := by
  induction l with
  | nil => simp [ensureAux]
  | cons hd tl ih =>
    obtain ⟨pname, schema⟩ := hd
    by_cases hskip : (schema.mutuallyExclusiveWith.isEmpty || !(hasValue parameters pname)) = true
    · rw [ensureAux, if_pos hskip, ih]
      constructor
      · intro h p s hmem hv o ho
        rcases List.mem_cons.mp hmem with heq | hmem'
        · obtain ⟨hp, hs⟩ := Prod.mk.injEq .. ▸ heq
          subst hp; subst hs
          rcases Bool.or_eq_true_iff.mp hskip with hemp | hnv
          · rw [List.isEmpty_iff] at hemp
            rw [hemp] at ho
            cases ho
          · rw [Bool.not_eq_true'] at hnv
            rw [hv] at hnv
            cases hnv
        · exact h p s hmem' hv o ho
      · intro h p s hmem hv o ho
        exact h p s (List.mem_cons_of_mem _ hmem) hv o ho
    · rw [ensureAux, if_neg hskip]
      have hne : schema.mutuallyExclusiveWith.isEmpty = false := by
        rcases Bool.or_eq_false_iff.mp (Bool.not_eq_true _ ▸ hskip) with ⟨h1, _⟩
        exact h1
      have hv : hasValue parameters pname = true := by
        rcases Bool.or_eq_false_iff.mp (Bool.not_eq_true _ ▸ hskip) with ⟨_, h2⟩
        rw [Bool.not_eq_false'] at h2
        exact h2
      cases hf : schema.mutuallyExclusiveWith.find? (fun other => hasValue parameters other) with
      | some other =>
        constructor
        · intro h; cases h
        · intro h
          exfalso
          have hmemo := List.mem_of_find?_eq_some hf
          have hvo := List.find?_some hf
          have := h pname schema (List.mem_cons_self _ _) hv other hmemo
          rw [this] at hvo
          cases hvo
      | none =>
        rw [ih]
        have hnone := List.find?_eq_none.mp hf
        constructor
        · intro h p s hmem hvp o ho
          rcases List.mem_cons.mp hmem with heq | hmem'
          · obtain ⟨hp, hs⟩ := Prod.mk.injEq .. ▸ heq
            subst hp; subst hs
            have := hnone o ho
            simpa using this
          · exact h p s hmem' hvp o ho
        · intro h p s hmem hvp o ho
          exact h p s (List.mem_cons_of_mem _ hmem) hvp o ho

/-- C6: constructing a `ChatRequest` or a `ProviderConfig` fails the
mutual-exclusion validation exactly when, per the provider-config
parameter schemas for its provider and model, some set (non-`None`)
parameter is marked mutually exclusive with another parameter that is
also set; a provider or model absent from the table is never rejected by
this check. -/
theorem mutual_exclusion_spec (cfg : ProviderTable) (r : ChatRequestD) (pc : ProviderConfigD) :
    ((∃ e, ChatRequestD.validate cfg r = .error e)
        ↔ hasConflict cfg r.provider r.model r.parameters)
    ∧ ((∃ e, ProviderConfigD.validate cfg pc = .error e)
        ↔ hasConflict cfg pc.provider pc.model pc.parameters)
    ∧ (lookupA r.provider cfg = none → ChatRequestD.validate cfg r = .ok r)
    ∧ (∀ p, lookupA r.provider cfg = some p → lookupA r.model p.models = none →
        ChatRequestD.validate cfg r = .ok r)
    ∧ (lookupA pc.provider cfg = none → ProviderConfigD.validate cfg pc = .ok pc)
    ∧ (∀ p, lookupA pc.provider cfg = some p → lookupA pc.model p.models = none →
        ProviderConfigD.validate cfg pc = .ok pc) := by
  have key : ∀ provider model parameters,
      (¬ ensureMutuallyExclusive cfg provider model parameters = .ok ())
        ↔ hasConflict cfg provider model parameters := by
    intro provider model parameters
    rw [ensureMutuallyExclusive, ensureAux_ok_iff]
    unfold hasConflict
    constructor
    · intro h
      push_neg at h
      obtain ⟨p, s, hmem, hv, o, ho, hvo⟩ := h
      exact ⟨p, s, hmem, hv, o, ho, by simpa using hvo⟩
    · intro h
      push_neg
      obtain ⟨p, s, hmem, hv, o, ho, hvo⟩ := h
      exact ⟨p, s, hmem, hv, o, ho, by simp [hvo]⟩
  have emptyOk : ∀ provider model parameters,
      paramSchemasFor cfg provider model = [] →
      ensureMutuallyExclusive cfg provider model parameters = .ok () := by
    intro provider model parameters h
    rw [ensureMutuallyExclusive, h]
    rfl
  refine ⟨?_, ?_, ?_, ?_, ?_, ?_⟩
  · rw [← key]
    unfold ChatRequestD.validate
    cases h : ensureMutuallyExclusive cfg r.provider r.model r.parameters with
    | ok v => simp
    | error e => simp
  · rw [← key]
    unfold ProviderConfigD.validate
    cases h : ensureMutuallyExclusive cfg pc.provider pc.model pc.parameters with
    | ok v => simp
    | error e => simp
  · intro h
    unfold ChatRequestD.validate
    rw [emptyOk r.provider r.model r.parameters (by simp [paramSchemasFor, h])]
  · intro p hp hm
    unfold ChatRequestD.validate
    rw [emptyOk r.provider r.model r.parameters (by simp [paramSchemasFor, hp, hm])]
  · intro h
    unfold ProviderConfigD.validate
    rw [emptyOk pc.provider pc.model pc.parameters (by simp [paramSchemasFor, h])]
  · intro p hp hm
    unfold ProviderConfigD.validate
    rw [emptyOk pc.provider pc.model pc.parameters (by simp [paramSchemasFor, hp, hm])]

theorem mutual_exclusion_spec_witness :
    hasConflict
      [("test-provider",
        { models :=
            [("test-model",
              { parameters :=
                  [("temperature", { mutuallyExclusiveWith := ["top_p"] }),
                   ("top_p", { mutuallyExclusiveWith := ["temperature"] })] })] })]
      "test-provider" "test-model"
      [("temperature", PyVal.pyRat (7 / 10)), ("top_p", PyVal.pyRat (9 / 10))]
    ∧ ChatRequestD.validate PROVIDER_CONFIG
        { messages := [], provider := "no-such-provider" }
      = .ok { messages := [], provider := "no-such-provider" } := by
  constructor
  · exact (mutual_exclusion_spec
      [("test-provider",
        { models :=
            [("test-model",
              { parameters :=
                  [("temperature", { mutuallyExclusiveWith := ["top_p"] }),
                   ("top_p", { mutuallyExclusiveWith := ["temperature"] })] })] })]
      { messages := [], provider := "test-provider", model := "test-model",
        parameters := [("temperature", PyVal.pyRat (7 / 10)), ("top_p", PyVal.pyRat (9 / 10))] }
      { provider := "x", model := "y", parameters := [] }).1.mp ⟨_, rfl⟩
  · exact (mutual_exclusion_spec PROVIDER_CONFIG
      { messages := [], provider := "no-such-provider" }
      { provider := "x", model := "y", parameters := [] }).2.2.1 (by decide)

/-- C10: `deploy_agent` is idempotent per agent — a second call for the
same agent id returns the "already deployed" message and leaves the
deployments store exactly as after the first call; deploying an agent
whose `friendly_name` is held by a deployment of a different agent raises
`HTTPException(409)`, and deploying an agent without a truthy
`friendly_name` raises `HTTPException(400)` (both without producing a new
store). -/
theorem deployAgent_spec (agents : AgentStore) (deployments : DeploymentStore)
    (agentId : String) (agent : AgentModel)
    (hA : lookupA agentId agents = some agent) :
    (∀ deployments' msg, deployAgent agents deployments agentId = .ok (deployments', msg) →
        deployAgent agents deployments' agentId
          = .ok (deployments', "Agent is already deployed"))
    ∧ (∀ fn other, agent.friendlyName = some fn → fn ≠ "" →
        lookupA fn deployments = some other → other ≠ agentId →
        deployAgent agents deployments agentId
          = .error ⟨409, "A deployment with the name '" ++ fn
              ++ "' already exists for a different agent."⟩)
    ∧ (truthy agent.friendlyName = false →
        deployAgent agents deployments agentId
          = .error ⟨400, "Agent must have a friendly_name to be deployed."⟩) := by
  refine ⟨?_, ?_, ?_⟩
  · intro deployments' msg h
    by_cases ht : truthy agent.friendlyName
    · have key : lookupA (agent.friendlyName.getD "") deployments' = some agentId := by
        cases hd : lookupA (agent.friendlyName.getD "") deployments with
        | none =>
          simp [deployAgent, hA, ht, hd] at h
          rw [← h.1, lookupA_setA_self]
        | some existing =>
          by_cases he : existing = agentId
          · simp [deployAgent, hA, ht, hd, he] at h
            rw [← h.1, hd, he]
          · simp [deployAgent, hA, ht, hd, he] at h
      simp [deployAgent, hA, ht, key]
    · simp [deployAgent, hA, ht] at h
  · intro fn other hfn hne hd hother
    have ht : truthy (some fn) = true := by
      cases he : fn.isEmpty
      · simp [truthy, he]
      · exact absurd ((String.isEmpty_iff fn).mp he) hne
    simp [deployAgent, hA, hfn, ht, hd, hother]
  · intro ht
    simp [deployAgent, hA, ht]

theorem deployAgent_spec_witness :
    deployAgent
        [("a1", { name := "calc", description := "d", code := "pass",
                  friendlyName := some "calculator", tools := [],
                  id := "a1", createdAt := 0, updatedAt := 0 })]
        [] "a1"
      = .ok ([("calculator", "a1")], "Agent deployed successfully")
    ∧ deployAgent
        [("a1", { name := "calc", description := "d", code := "pass",
                  friendlyName := some "calculator", tools := [],
                  id := "a1", createdAt := 0, updatedAt := 0 })]
        [("calculator", "a1")] "a1"
      = .ok ([("calculator", "a1")], "Agent is already deployed")
    ∧ deployAgent
        [("a1", { name := "calc", description := "d", code := "pass",
                  friendlyName := some "calculator", tools := [],
                  id := "a1", createdAt := 0, updatedAt := 0 })]
        [("calculator", "other-agent")] "a1"
      = .error ⟨409, "A deployment with the name 'calculator' already exists for a different agent."⟩ := by
  refine ⟨rfl, ?_, ?_⟩
  · exact (deployAgent_spec
      [("a1", { name := "calc", description := "d", code := "pass",
                friendlyName := some "calculator", tools := [],
                id := "a1", createdAt := 0, updatedAt := 0 })]
      [] "a1"
      { name := "calc", description := "d", code := "pass",
        friendlyName := some "calculator", tools := [],
        id := "a1", createdAt := 0, updatedAt := 0 } rfl).1
      [("calculator", "a1")] "Agent deployed successfully" rfl
  · exact (deployAgent_spec
      [("a1", { name := "calc", description := "d", code := "pass",
                friendlyName := some "calculator", tools := [],
                id := "a1", createdAt := 0, updatedAt := 0 })]
      [("calculator", "other-agent")] "a1"
      { name := "calc", description := "d", code := "pass",
        friendlyName := some "calculator", tools := [],
        id := "a1", createdAt := 0, updatedAt := 0 } rfl).2.1
      "calculator" "other-agent" rfl (by decide) rfl (by decide)

/-- C3: `POST /chat` immediately returns a fresh ticket id with status
`pending` and schedules `process_chat` on that id; the stored ticket's
status trace is exactly `processing` followed by one terminal write —
`completed` carrying a result with content, thoughts and
`provider/model`, or `failed` carrying the error string — no write
follows a terminal one, and `GET /chat/{ticket_id}` returns the stored
status, result and error whenever the ticket exists. -/
theorem chat_ticket_lifecycle (freshTicketId : String) (request : ChatRequestD)
    (outcome : ChatOutcome) (t0 t1 : Nat) :
    ((chatEndpoint freshTicketId request).1
        = { ticketId := freshTicketId, status := .pending }
      ∧ (chatEndpoint freshTicketId request).2 = ⟨freshTicketId, request⟩)
    ∧ ((processChatSaves freshTicketId request outcome t0 t1).map Prod.fst
        = [freshTicketId, freshTicketId])
    ∧ ((processChatSaves freshTicketId request outcome t0 t1).map (fun p => p.2.status)
          = [.processing, .completed]
        ∨ (processChatSaves freshTicketId request outcome t0 t1).map (fun p => p.2.status)
          = [.processing, .failed])
    ∧ (∀ content thoughts, outcome = .success content thoughts →
        ((processChatSaves freshTicketId request outcome t0 t1).getLast?).map
            (fun p => (p.2.status, p.2.result, p.2.error))
          = some (.completed,
              some ⟨content, thoughts, request.provider ++ "/" ++ request.model⟩, none))
    ∧ (∀ err, outcome = .failure err →
        ((processChatSaves freshTicketId request outcome t0 t1).getLast?).map
            (fun p => (p.2.status, p.2.result, p.2.error))
          = some (.failed, none, some err))
    ∧ (∀ i j (hi : i < (processChatSaves freshTicketId request outcome t0 t1).length)
          (hj : j < (processChatSaves freshTicketId request outcome t0 t1).length),
        i < j →
        ((processChatSaves freshTicketId request outcome t0 t1).get ⟨i, hi⟩).2.status.isTerminal
          = false)
    ∧ (∀ s d, MemoryDB.get s "tickets" freshTicketId = .ok d →
        getChatStatus s freshTicketId = .ok ⟨freshTicketId, d.status, d.result, d.error⟩) := by
  refine ⟨⟨rfl, rfl⟩, ?_, ?_, ?_, ?_, ?_, ?_⟩
  · cases outcome <;> rfl
  · cases outcome with
    | success content thoughts => left; rfl
    | failure err => right; rfl
  · intro content thoughts h
    subst h
    rfl
  · intro err h
    subst h
    rfl
  · intro i j hi hj hij
    cases outcome with
    | success content thoughts =>
      simp [processChatSaves] at hi hj
      match i, j with
      | 0, _ => simp [processChatSaves, ChatStatus.isTerminal]
      | i + 1, j => omega
    | failure err =>
      simp [processChatSaves] at hi hj
      match i, j with
      | 0, _ => simp [processChatSaves, ChatStatus.isTerminal]
      | i + 1, j => omega
  · intro s d h
    simp [getChatStatus, h]

theorem chat_ticket_lifecycle_witness :
    ((processChatSaves "t-1" { messages := [] } (.success "hi" []) 3 4).getLast?).map
        (fun p => (p.2.status, p.2.result, p.2.error))
      = some (.completed, some ⟨"hi", [], "openai/gpt-3.5-turbo"⟩, none)
    ∧ getChatStatus
        ⟨[("tickets",
           [("t-1", { status := .completed, createdAt := 3, request := { messages := [] },
                      result := some ⟨"hi", [], "openai/gpt-3.5-turbo"⟩ })])]⟩ "t-1"
      = .ok ⟨"t-1", .completed, some ⟨"hi", [], "openai/gpt-3.5-turbo"⟩, none⟩ :=
  ⟨(chat_ticket_lifecycle "t-1" { messages := [] } (.success "hi" []) 3 4).2.2.2.1 "hi" [] rfl,
   (chat_ticket_lifecycle "t-1" { messages := [] } (.success "hi" []) 3 4).2.2.2.2.2.2
     ⟨[("tickets",
        [("t-1", { status := .completed, createdAt := 3, request := { messages := [] },
                   result := some ⟨"hi", [], "openai/gpt-3.5-turbo"⟩ })])]⟩
     { status := .completed, createdAt := 3, request := { messages := [] },
       result := some ⟨"hi", [], "openai/gpt-3.5-turbo"⟩ } rfl⟩

/-- C1 (counterexample): the constructed `exec_globals` namespace contains
no `"mcpc"` key — at the concrete execution with no dependent agents the
namespace is built successfully and looking up `"mcpc"` yields nothing,
so the claim that the namespace injects an `'mcpc'` dictionary is false. -/
theorem mcpc_not_injected :
    Except.map (fun g => lookupA "mcpc" g) (execGlobals [] none none none)
      = Except.ok none := by
  rfl

/-- C1 (amended): every execution namespace `_execute_agent_code` builds
binds exactly the nine keys `RemoteMCPClient`, `call_llm`, `asyncio`,
`httpx`, `re`, `json`, `http_client`, `gofannon_client` and
`__builtins__` — with `http_client` a redirect-following HTTP client,
`call_llm` wrapped with the requesting user's identity, and
`gofannon_client` re-entering the same execution helper on the named
dependent agent's stored code, input dict, tools and dependent agents.
The `mcpc` dictionary of one `RemoteMCPClient` per URL in the agent's
tools is not a namespace key: it is built by the generated code's fixed
header inside `run`, from the injected `RemoteMCPClient` class. -/
theorem execGlobals_injection_spec (agents : AgentStore)
    (gofannonAgents : Option (List String)) (userId : Option String)
    (userBasicInfo : Option BasicInfoD) (g : List (String × Injected)) (tools : ToolsD)
    (h : execGlobals agents gofannonAgents userId userBasicInfo = .ok g) :
    (g.map Prod.fst
      = ["RemoteMCPClient", "call_llm", "asyncio", "httpx", "re", "json",
         "http_client", "gofannon_client", "__builtins__"])
    ∧ lookupA "mcpc" g = none
    ∧ lookupA "http_client" g = some (.httpClient true)
    ∧ lookupA "call_llm" g = some (.callLLM userId userBasicInfo)
    ∧ (∃ agentMap, buildAgentMap agents gofannonAgents = .ok agentMap
        ∧ lookupA "gofannon_client" g = some (.gofannonClient agentMap)
        ∧ (∀ agentName a inputDict, lookupA agentName agentMap = some a →
            gofannonClientCall agentMap userId userBasicInfo agentName inputDict
              = .ok ⟨a.code, inputDict, a.tools, a.gofannonAgents, userId, userBasicInfo⟩)
        ∧ (∀ agentName inputDict, lookupA agentName agentMap = none →
            ∃ e, gofannonClientCall agentMap userId userBasicInfo agentName inputDict
              = .error e))
    ∧ ((mcpcDict tools).map Prod.fst = tools.map Prod.fst
        ∧ ∀ url c, (url, c) ∈ mcpcDict tools → c.remoteUrl = url) := by
  unfold execGlobals at h
  cases hb : buildAgentMap agents gofannonAgents with
  | error e => rw [hb] at h; cases h
  | ok agentMap =>
    rw [hb] at h
    cases h
    refine ⟨rfl, rfl, ?_, ?_, ⟨agentMap, rfl, ?_, ?_, ?_⟩, ?_, ?_⟩
    · simp [lookupA]
    · simp [lookupA]
    · simp [lookupA]
    · intro agentName a inputDict hl
      simp [gofannonClientCall, hl]
    · intro agentName inputDict hl
      simp [gofannonClientCall, hl]
    · simp [mcpcDict]
    · intro url c hm
      simp [mcpcDict] at hm
      obtain ⟨kv, hkv, h1, h2⟩ := hm
      rw [← h2, ← h1]

theorem execGlobals_injection_spec_witness :
    ∃ g, execGlobals
        [("a1", { name := "helper", description := "d", code := "agent-code-body",
                  tools := [("http://mcp.example", ["add"])],
                  gofannonAgents := some [], id := "a1", createdAt := 0, updatedAt := 0 })]
        (some ["a1"]) (some "user-9") none = .ok g
      ∧ lookupA "mcpc" g = none
      ∧ lookupA "http_client" g = some (.httpClient true)
      ∧ lookupA "call_llm" g = some (.callLLM (some "user-9") none)
      ∧ (mcpcDict [("http://mcp.example", ["add"])]).map Prod.fst = ["http://mcp.example"] := by
  have h := execGlobals_injection_spec
    [("a1", { name := "helper", description := "d", code := "agent-code-body",
              tools := [("http://mcp.example", ["add"])],
              gofannonAgents := some [], id := "a1", createdAt := 0, updatedAt := 0 })]
    (some ["a1"]) (some "user-9") none _ [("http://mcp.example", ["add"])] rfl
  exact ⟨_, rfl, h.2.1, h.2.2.1, h.2.2.2.1, h.2.2.2.2.2.1⟩

end Gofannon
